import Mathlib

/-!
Verification of the OnnxifiOp delegation layer
(`caffe2/operators/onnxifi_op.h`).

The C++ header defines a templated operator `OnnxifiOp` that hands a
subgraph to an external ONNXIFI backend.  We shallowly embed the pure
content of its constructor, of the cache-entry creator lambda inside
`BuildBackendAndGraph`, and of `SetOutputShapeAndType`.  The native
backend library (`onnxifi_library`) is a table of opaque entry points; we
model it as a record of deterministic functions and record every native
ABI call the code makes in an explicit event trace, so that statements
about call order and about which statuses abort construction become
statements about the produced trace and result.

Opaque native handles (`onnxBackendID`, `onnxBackend`, `onnxGraph`,
extension function pointers) are modelled as natural numbers; status
codes are the numeric constants of the ONNXIFI ABI.
-/

namespace Onnxifi

/-- ONNXIFI status code: the designated success code. -/
def ONNXIFI_STATUS_SUCCESS : Nat := 0x0000

/-- ONNXIFI status code: the designated fallback/insufficient-buffer code. -/
def ONNXIFI_STATUS_FALLBACK : Nat := 0x0001

/-- ONNXIFI element-type tag for 32-bit floating point. -/
def ONNXIFI_DATATYPE_FLOAT32 : Nat := 1

/-- ONNXIFI backend property list terminator (the single property pushed by
`BuildPropertyList`). -/
def ONNXIFI_BACKEND_PROPERTY_NONE : Nat := 0

/-- C++ conversion of a (possibly negative) signed integer to `uint64_t`:
the value modulo `2^64`. -/
def uint64OfInt (x : Int) : Nat := (x % (2 : Int) ^ 64).toNat

/-- `OnnxifiOp::TensorInfo`: an output shape hint, element-type tag plus
dimension sizes (both stored as `uint64_t` in the C++). -/
structure TensorInfo where
  dims : List Nat
  onnxifi_type : Nat
deriving DecidableEq, Repr

/-- `onnxTensorDescriptorV1`, restricted to the fields this core touches:
the bound name, the element type, dims and the raw buffer pointer. -/
structure onnxTensorDescriptorV1 where
  name : String
  dataType : Nat := 0
  dims : List Nat := []
  buffer : Nat := 0
deriving DecidableEq, Repr

/-- The handle bundle cached per compiled-subgraph occurrence
(`onnx::BackendGraphInfo`): backend identity, backend instance and graph
handles. -/
structure BackendGraphInfo where
  backend_id : Nat
  backend : Nat
  graph : Nat
deriving DecidableEq, Repr

/-- One native ABI call made through the `onnxifi_library` function table.
Construction-time code produces a trace of these. -/
inductive AbiEvent where
  /-- `onnxGetBackendIDs(nullptr, &count)`: the count query of the
  two-phase enumeration. -/
  | getBackendIDsNull : AbiEvent
  /-- `onnxGetBackendIDs(buf, &count)` with a buffer of the given
  capacity: the fill query of the two-phase enumeration. -/
  | getBackendIDsFill (capacity : Nat) : AbiEvent
  /-- `onnxInitBackend(backend_id, props, &backend)`. -/
  | initBackend (backend_id : Nat) : AbiEvent
  /-- `onnxReleaseBackendID(backend_id)`. -/
  | releaseBackendID (backend_id : Nat) : AbiEvent
  /-- `onnxInitGraph(backend, ...)`. -/
  | initGraph (backend : Nat) : AbiEvent
  /-- `onnxGetExtensionFunctionAddress(backend_id, name, &p)`. -/
  | getExtensionFunctionAddress (name : String) : AbiEvent
deriving DecidableEq, Repr

/-- The loaded ONNXIFI library: the entry points consumed by this core,
modelled as deterministic functions returning a status code together with
whatever the call writes through its out-parameters. -/
structure onnxifi_library where
  /-- Count query: status and the backend count written to `*numBackends`. -/
  getBackendIDsNull : Nat × Nat
  /-- Fill query, given the buffer capacity: status and the identities
  written into the buffer. -/
  getBackendIDsFill : Nat → Nat × List Nat
  /-- Initialize a backend instance from an identity and a property list:
  status and the backend handle. -/
  initBackend : Nat → List Nat → Nat × Nat
  /-- Release a backend identity handle: status (discarded by the code). -/
  releaseBackendID : Nat → Nat
  /-- Initialize a graph from a backend, the serialized model bytes and the
  weight descriptors: status and the graph handle. -/
  initGraph : Nat → String → List onnxTensorDescriptorV1 → Nat × Nat
  /-- Query an extension function address by name: status and the pointer. -/
  getExtensionFunctionAddress : Nat → String → Nat × Nat

/-- The `creator` lambda of `OnnxifiOp::BuildBackendAndGraph`
(onnxifi_op.h lines 136-188), returning the construction result and the
trace of native ABI calls it made.  Each `CAFFE_ENFORCE_*` failure is an
`Except.error` carrying the name of the failing operation. -/
def creator (lib : onnxifi_library) (property_pointers : List Nat)
    (backend_index : Nat) (onnx_model_str : String)
    (weight_descs : List onnxTensorDescriptorV1) :
    Except String BackendGraphInfo × List AbiEvent :=
  let r0 := lib.getBackendIDsNull
  let num_backends := r0.2
  let tr0 := [AbiEvent.getBackendIDsNull]
  if r0.1 ≠ ONNXIFI_STATUS_FALLBACK then
    (Except.error "onnxGetBackendIDs: expected ONNXIFI_STATUS_FALLBACK", tr0)
  else if ¬ 0 < num_backends then
    (Except.error "At least 1 onnxifi backend should be available", tr0)
  else if ¬ backend_index < num_backends then
    (Except.error "Backend idx out of bound", tr0)
  else
    let r1 := lib.getBackendIDsFill num_backends
    let backend_ids := r1.2
    let tr1 := tr0 ++ [AbiEvent.getBackendIDsFill num_backends]
    if r1.1 ≠ ONNXIFI_STATUS_SUCCESS then
      (Except.error "onnxGetBackendIDs: expected ONNXIFI_STATUS_SUCCESS", tr1)
    else
      let backend_id := backend_ids.getD backend_index 0
      let r2 := lib.initBackend backend_id property_pointers
      let backend := r2.2
      let tr2 := tr1 ++ [AbiEvent.initBackend backend_id]
      if r2.1 ≠ ONNXIFI_STATUS_SUCCESS then
        (Except.error "onnxInitBackend", tr2)
      else
        let tr3 := tr2 ++ ((List.range num_backends).filter
          (fun i => i ≠ backend_index)).map
            (fun i => AbiEvent.releaseBackendID (backend_ids.getD i 0))
        let r3 := lib.initGraph backend onnx_model_str weight_descs
        let graph := r3.2
        let tr4 := tr3 ++ [AbiEvent.initGraph backend]
        if r3.1 ≠ ONNXIFI_STATUS_SUCCESS then
          (Except.error "onnxInitGraph", tr4)
        else
          (Except.ok ⟨backend_id, backend, graph⟩, tr4)

/-- Parsing of one `output_shape_hint_<i>` repeated-int argument
(onnxifi_op.h lines 56-63): an empty list records nothing; otherwise the
front element becomes the element-type tag and the remaining elements the
dims, each converted from C++ `int` to `uint64_t`. -/
def parseOutputShapeHint (output_shape_hint : List Int) : Option TensorInfo :=
  match output_shape_hint with
  | [] => none
  | t :: rest => some ⟨rest.map uint64OfInt, uint64OfInt t⟩

/-- The constructor loop over output positions (onnxifi_op.h lines 48-65)
building `output_shape_hints_`: for each output index below the number of
outputs, the hint argument is parsed and, when non-empty, recorded under
that index. -/
def buildOutputShapeHints (hintArg : Nat → List Int) : Nat → List (Nat × TensorInfo)
  | 0 => []
  | n + 1 => buildOutputShapeHints hintArg n ++
      ((parseOutputShapeHint (hintArg n)).map (fun info => (n, info))).toList

/-- `OnnxifiOp::SetOutputShapeAndType` (onnxifi_op.h lines 104-115): the
type defaults to `ONNXIFI_DATATYPE_FLOAT32`; a registered hint overrides
the type and appends its dims to the caller's dims vector. -/
def SetOutputShapeAndType (output_shape_hints : List (Nat × TensorInfo))
    (output_idx : Nat) (dims : List Nat) : Nat × List Nat :=
  match output_shape_hints.lookup output_idx with
  | some info => (info.onnxifi_type, dims ++ info.dims)
  | none => (ONNXIFI_DATATYPE_FLOAT32, dims)

/-- The constructor's pairing loop over the `initializers` argument
(onnxifi_op.h lines 82-86): consecutive elements become
(original-name, workspace-name) pairs. -/
def pairsOf : List String → List (String × String)
  | a :: b :: rest => (a, b) :: pairsOf rest
  | _ => []

/-- Interleaves a pair list back into a flat list; used to state that an
even-length `initializers` list is parsed as consecutive pairs. -/
def flattenPairs (ps : List (String × String)) : List String :=
  ps.flatMap (fun p => [p.1, p.2])

/-- The cache key computed by `BuildBackendAndGraph`
(onnxifi_op.h lines 129-131): `model_id ++ ":" ++ net_pos`. -/
def makeOpIdString (model_id net_pos : String) : String :=
  model_id ++ ":" ++ net_pos

/-- Modelled from the spec: the process-wide backend/graph cache
(`onnx::OnnxBackendGraphMap`, declared in `caffe2/onnx/onnxifi_graph_info.h`
which is not part of this excerpt).  Per spec section 4.3 the cache maps a
CacheKey to a reference-counted HandleBundle; `creatorCalls` records, for
audit, each key for which the creator was actually invoked, and
`destroyed` records each bundle whose native resources were torn down. -/
structure CacheState where
  entries : List (String × BackendGraphInfo × Nat) := []
  creatorCalls : List String := []
  destroyed : List BackendGraphInfo := []
deriving Repr

/-- Helper for the spec-modelled cache: bump the reference count of the
entry for `key` by one. -/
def bumpRef (key : String) :
    List (String × BackendGraphInfo × Nat) → List (String × BackendGraphInfo × Nat)
  | [] => []
  | (k, info, c) :: rest =>
      if k = key then (k, info, c + 1) :: rest else (k, info, c) :: bumpRef key rest

/-- Helper for the spec-modelled cache: decrement the reference count for
`key`, removing the entry (and reporting the torn-down bundle) when the
count reaches zero. -/
def dropRef (key : String) :
    List (String × BackendGraphInfo × Nat) →
      List (String × BackendGraphInfo × Nat) × List BackendGraphInfo
  | [] => ([], [])
  | (k, info, c) :: rest =>
      if k = key then
        if c ≤ 1 then (rest, [info]) else ((k, info, c - 1) :: rest, [])
      else
        let r := dropRef key rest
        ((k, info, c) :: r.1, r.2)

/-- Modelled from the spec: `OnnxBackendGraphMap::insert(key, creator)`
(spec section 4.3 `get_or_create`).  When `key` is present the stored
bundle is returned with its reference count bumped and the creator is not
invoked (no ABI events); on a miss the supplied creator result is used,
its ABI events surface, and a successful creation installs the bundle with
count one. -/
def OnnxBackendGraphMap.insert (key : String)
    (creatorResult : Except String BackendGraphInfo × List AbiEvent)
    (s : CacheState) :
    Except String (BackendGraphInfo × CacheState) × List AbiEvent :=
  match s.entries.lookup key with
  | some (info, _) =>
      (Except.ok (info, { s with entries := bumpRef key s.entries }), [])
  | none =>
      match creatorResult with
      | (Except.error e, tr) => (Except.error e, tr)
      | (Except.ok info, tr) =>
          (Except.ok (info, { s with
              entries := (key, info, 1) :: s.entries,
              creatorCalls := s.creatorCalls ++ [key] }), tr)

/-- Modelled from the spec: `OnnxBackendGraphMap::remove(key)` as driven by
`~OnnxifiOp` (spec section 4.3 `release`): decrement the reference count;
at zero tear down the bundle's native resources and drop the entry.
Releasing a key with no entry is a programming error. -/
def OnnxBackendGraphMap.remove (key : String) (s : CacheState) :
    Except String CacheState :=
  match s.entries.lookup key with
  | none => Except.error "release of a key with no cache entry"
  | some _ =>
      let r := dropRef key s.entries
      Except.ok { s with entries := r.1, destroyed := s.destroyed ++ r.2 }

/-- The operator-configuration arguments consumed by the `OnnxifiOp`
constructor.  An absent repeated argument reads as the empty list and an
absent single argument as its documented default, matching
`GetRepeatedArgument`/`GetSingleArgument`. -/
structure OpArgs where
  onnx_model : String := ""
  input_names : List String := []
  output_names : List String := []
  /-- `output_shape_hint_<i>`, indexed by output position. -/
  output_shape_hint : Nat → List Int := fun _ => []
  initializers : List String := []
  backend_id : Nat := 0
  model_id : String := ""
  net_pos : String := ""

/-- The per-instance state established by the `OnnxifiOp` constructor:
the cache key, the descriptor templates, the recorded shape hints, the
shared handle bundle's handles, and the optional extension entry point
(`none` models a null function pointer). -/
structure OnnxifiOpState where
  op_id_string : String
  input_desc : List onnxTensorDescriptorV1
  output_desc : List onnxTensorDescriptorV1
  output_shape_hints : List (Nat × TensorInfo)
  backend_id : Nat
  backend : Nat
  graph : Nat
  onnxSetIOAndRunGraphPointer : Option Nat
  input_names : List String
  output_names : List String
deriving Repr

/-- The `OnnxifiOp` constructor together with `BuildBackendAndGraph`
(onnxifi_op.h lines 28-99 and 125-208), compiled with ONNXIFI_ENABLE_EXT.
`buildInitList` stands for the external collaborator
`buildInitializationList` (declared only in this header), fed the rename
mapping and the set of original initializer names; `input_size` and
`output_size` are the operator's declared arities; `cache` is the
process-wide backend/graph map.  Returns the constructed state and the
updated cache, plus the trace of native ABI calls made. -/
def constructOp (lib : onnxifi_library)
    (buildInitList : List (String × String) → List String →
      List onnxTensorDescriptorV1)
    (args : OpArgs) (input_size output_size : Nat) (cache : CacheState) :
    Except String (OnnxifiOpState × CacheState) × List AbiEvent :=
  if args.onnx_model = "" then
    (Except.error "onnx_model cannot be empty", [])
  else if args.input_names.length ≠ input_size then
    (Except.error "input_names size mismatch", [])
  else if args.output_names.length ≠ output_size then
    (Except.error "output_names size mismatch", [])
  else
    let input_desc := args.input_names.map
      (fun n => ({ name := n } : onnxTensorDescriptorV1))
    let output_desc := args.output_names.map
      (fun n => ({ name := n } : onnxTensorDescriptorV1))
    let hints := buildOutputShapeHints args.output_shape_hint args.output_names.length
    let property_pointers := [ONNXIFI_BACKEND_PROPERTY_NONE]
    if args.initializers.length % 2 ≠ 0 then
      (Except.error "initializers should come in pairs", [])
    else
      let input_mapping := pairsOf args.initializers
      let initializer_set := input_mapping.map Prod.fst
      let weight_descs := buildInitList input_mapping initializer_set
      let op_id := makeOpIdString args.model_id args.net_pos
      match OnnxBackendGraphMap.insert op_id
          (creator lib property_pointers args.backend_id args.onnx_model
            weight_descs) cache with
      | (Except.error e, tr) => (Except.error e, tr)
      | (Except.ok (info, cache2), tr) =>
          let pr := lib.getExtensionFunctionAddress info.backend_id
            "onnxSetIOAndRunGraphFunction"
          let ptr := if pr.1 = ONNXIFI_STATUS_SUCCESS then some pr.2 else none
          (Except.ok ({ op_id_string := op_id
                        input_desc := input_desc
                        output_desc := output_desc
                        output_shape_hints := hints
                        backend_id := info.backend_id
                        backend := info.backend
                        graph := info.graph
                        onnxSetIOAndRunGraphPointer := ptr
                        input_names := args.input_names
                        output_names := args.output_names }, cache2),
           tr ++ [AbiEvent.getExtensionFunctionAddress "onnxSetIOAndRunGraphFunction"])

/-- Modelled from the spec: the per-invocation descriptor refresh of
`RunOnDevice` (declared only in this header; spec sections 4.5-4.6 state
that each call refreshes each descriptor's buffer pointer and dimension
sequence from tensor storage, and nothing else). -/
def refreshDescriptors (newDims : Nat → List Nat) (newBuffer : Nat → Nat)
    (descs : List onnxTensorDescriptorV1) : List onnxTensorDescriptorV1 :=
  descs.mapIdx (fun i d => { d with dims := newDims i, buffer := newBuffer i })

/-! Concrete library behaviours used to exercise the model on closed inputs. -/

/-- A well-behaved library exposing one backend: the count query reports
fallback (as the two-phase pattern expects), every other call succeeds. -/
def libOneBackend : onnxifi_library where
  getBackendIDsNull := (ONNXIFI_STATUS_FALLBACK, 1)
  getBackendIDsFill := fun n => (ONNXIFI_STATUS_SUCCESS, (List.range n).map (fun i => 10 + i))
  initBackend := fun _ _ => (ONNXIFI_STATUS_SUCCESS, 100)
  releaseBackendID := fun _ => ONNXIFI_STATUS_SUCCESS
  initGraph := fun _ _ _ => (ONNXIFI_STATUS_SUCCESS, 200)
  getExtensionFunctionAddress := fun _ _ => (ONNXIFI_STATUS_SUCCESS, 300)

/-- A well-behaved library exposing three backends. -/
def libThreeBackends : onnxifi_library :=
  { libOneBackend with getBackendIDsNull := (ONNXIFI_STATUS_FALLBACK, 3) }

/-- A library whose null-buffer count query returns the success code
instead of the fallback code. -/
def libCountSuccess : onnxifi_library :=
  { libOneBackend with getBackendIDsNull := (ONNXIFI_STATUS_SUCCESS, 1) }

/-- A three-backend library whose `onnxReleaseBackendID` returns a
non-success, non-fallback status code. -/
def libBadRelease : onnxifi_library :=
  { libThreeBackends with releaseBackendID := fun _ => 42 }

/-- A library reporting zero available backends. -/
def libZeroBackends : onnxifi_library :=
  { libOneBackend with getBackendIDsNull := (ONNXIFI_STATUS_FALLBACK, 0) }

/-- A well-behaved library whose extension probe fails. -/
def libNoExt : onnxifi_library :=
  { libOneBackend with getExtensionFunctionAddress := fun _ _ => (ONNXIFI_STATUS_FALLBACK, 0) }

/-- A concrete valid operator configuration: two inputs, one output, one
initializer pair. -/
def argsGood : OpArgs where
  onnx_model := "model-bytes"
  input_names := ["x", "y"]
  output_names := ["z"]
  output_shape_hint := fun _ => []
  initializers := ["w", "w_mapped"]
  backend_id := 0
  model_id := "m"
  net_pos := "0"

/-- The configuration `argsGood` with an odd-length initializers list. -/
def argsOddInit : OpArgs :=
  { argsGood with initializers := ["w"] }

/-- A trivial stand-in for the external `buildInitializationList`
collaborator: no weights. -/
def noWeights : List (String × String) → List String → List onnxTensorDescriptorV1 :=
  fun _ _ => []

/-- A concrete shape-hint argument assignment: output 0 carries the hint
list `[1, 2, -1]`, all other outputs carry none. -/
def hintArgExample : Nat → List Int :=
  fun i => if i = 0 then [1, 2, -1] else []

/-- The operator state produced by constructing `argsGood` against
`libOneBackend` with arities 2 and 1. -/
def stGood : OnnxifiOpState where
  op_id_string := "m:0"
  input_desc := [{ name := "x" }, { name := "y" }]
  output_desc := [{ name := "z" }]
  output_shape_hints := []
  backend_id := 10
  backend := 100
  graph := 200
  onnxSetIOAndRunGraphPointer := some 300
  input_names := ["x", "y"]
  output_names := ["z"]

/-- The cache state after that construction: one entry, one creator call. -/
def cacheGood : CacheState := ⟨[("m:0", ⟨10, 100, 200⟩, 1)], ["m:0"], []⟩

/-- The operator state produced by constructing `argsGood` against
`libNoExt`: identical to `stGood` except the extension pointer is null. -/
def stNoExt : OnnxifiOpState :=
  { stGood with onnxSetIOAndRunGraphPointer := none }

/-! Helper lemmas about association-list lookup and the pairing loop. -/

/-- Lookup in an appended association list: the left list wins. -/
theorem lookup_append {α : Type} {β : Type} [BEq α] (k : α) (l1 l2 : List (α × β)) :
    (l1 ++ l2).lookup k =
      match l1.lookup k with
      | some v => some v
      | none => l2.lookup k := by
  induction l1 with
  | nil => simp [List.lookup]
  | cons p t ih =>
      obtain ⟨a, b⟩ := p
      simp only [List.cons_append, List.lookup]
      cases h : k == a <;> simp [h, ih]

/-- Keys recorded by the hint-building loop are below the loop bound. -/
theorem lookup_buildOutputShapeHints_ge (h : Nat → List Int) (n i : Nat) (hi : n ≤ i) :
    (buildOutputShapeHints h n).lookup i = none := by
  induction n with
  | zero => rfl
  | succ m ih =>
      rw [buildOutputShapeHints, lookup_append, ih (by omega)]
      have hne : (i == m) = false := by simp; omega
      cases hp : parseOutputShapeHint (h m) <;> simp [List.lookup, hne]

/-- The hint recorded for an output position below the loop bound is
exactly the parse of that position's hint argument. -/
theorem lookup_buildOutputShapeHints (h : Nat → List Int) (n i : Nat) (hi : i < n) :
    (buildOutputShapeHints h n).lookup i = parseOutputShapeHint (h i) := by
  induction n with
  | zero => omega
  | succ m ih =>
      rw [buildOutputShapeHints, lookup_append]
      rcases Nat.lt_or_ge i m with hlt | hge
      · rw [ih hlt]
        cases hp : parseOutputShapeHint (h i)
        · simp
          intro a _
          omega
        · simp
      · have him : i = m := by omega
        subst him
        rw [lookup_buildOutputShapeHints_ge h i i (Nat.le_refl i)]
        cases hp : parseOutputShapeHint (h i) <;> simp [List.lookup]

/-- Re-flattening the pairs parsed from an even-length list restores it:
the parse is exactly by consecutive pairs. -/
theorem flattenPairs_pairsOf : ∀ (l : List String), l.length % 2 = 0 →
    flattenPairs (pairsOf l) = l
  | [], _ => rfl
  | [a], h => by simp at h
  | a :: b :: t, h => by
      have h2 : t.length % 2 = 0 := by simp [List.length_cons] at h; omega
      have ih := flattenPairs_pairsOf t h2
      simp [pairsOf, flattenPairs] at ih ⊢
      exact ih

/-- Every pair list flattens back to a list that parses to it. -/
theorem pairsOf_flattenPairs : ∀ (ps : List (String × String)),
    pairsOf (flattenPairs ps) = ps
  | [] => rfl
  | p :: t => by
      obtain ⟨a, b⟩ := p
      simp [flattenPairs, pairsOf] at *
      exact pairsOf_flattenPairs t

/-- Splitting a character list at a separator absent from both left parts
is unambiguous. -/
theorem colon_append_inj : ∀ (a b c d : List Char), ':' ∉ a → ':' ∉ c →
    a ++ ':' :: b = c ++ ':' :: d → a = c ∧ b = d := by
  intro a
  induction a with
  | nil =>
      intro b c d _ hc h
      cases c with
      | nil => simpa using h
      | cons y ys =>
          simp at h
          obtain ⟨h1, _⟩ := h
          subst h1
          exact absurd (List.mem_cons_self _ _) hc
  | cons x xs ih =>
      intro b c d ha hc h
      cases c with
      | nil =>
          simp at h
          obtain ⟨h1, _⟩ := h
          subst h1
          exact absurd (List.mem_cons_self _ _) ha
      | cons y ys =>
          simp at h
          obtain ⟨h1, h2⟩ := h
          subst h1
          have hr := ih b ys d (fun hm => ha (List.mem_cons_of_mem _ hm))
            (fun hm => hc (List.mem_cons_of_mem _ hm)) h2
          exact ⟨by rw [hr.1], hr.2⟩

/-- The characters of the cache key: model id, a colon, net position. -/
theorem makeOpIdString_data (m p : String) :
    (makeOpIdString m p).data = m.data ++ ':' :: p.data := by
  simp [makeOpIdString, String.data_append]

/-- The creator closure never consults the extension-probe entry point, so
updating that entry point leaves the creator unchanged. -/
theorem creator_ext_update (lib : onnxifi_library) (f : Nat → String → Nat × Nat) :
    creator { lib with getExtensionFunctionAddress := f } = creator lib := rfl

/-- A successful construction implies every configuration check passed:
non-empty model bytes, matching arities, even initializers list. -/
theorem constructOp_ok_checks (lib : onnxifi_library)
    (bi : List (String × String) → List String → List onnxTensorDescriptorV1)
    (args : OpArgs) (is os : Nat) (cache : CacheState)
    (st : OnnxifiOpState) (c2 : CacheState)
    (h : (constructOp lib bi args is os cache).1 = Except.ok (st, c2)) :
    args.onnx_model ≠ "" ∧ args.input_names.length = is ∧
    args.output_names.length = os ∧ args.initializers.length % 2 = 0 := by
  simp only [constructOp] at h
  split_ifs at h with h1 h2 h3 h4
  exact ⟨h1, not_not.mp h2, not_not.mp h3, not_not.mp h4⟩

/-- When every configuration check passes, construction reduces to the
cache insertion followed by the extension probe. -/
theorem constructOp_eq (lib : onnxifi_library)
    (bi : List (String × String) → List String → List onnxTensorDescriptorV1)
    (args : OpArgs) (is os : Nat) (cache : CacheState)
    (hm : args.onnx_model ≠ "")
    (hi : args.input_names.length = is)
    (ho : args.output_names.length = os)
    (hp : args.initializers.length % 2 = 0) :
    constructOp lib bi args is os cache =
      match OnnxBackendGraphMap.insert (makeOpIdString args.model_id args.net_pos)
          (creator lib [ONNXIFI_BACKEND_PROPERTY_NONE] args.backend_id
            args.onnx_model
            (bi (pairsOf args.initializers)
              ((pairsOf args.initializers).map Prod.fst))) cache with
      | (Except.error e, tr) => (Except.error e, tr)
      | (Except.ok (info, cache2), tr) =>
          (Except.ok
            ({ op_id_string := makeOpIdString args.model_id args.net_pos
               input_desc := args.input_names.map
                 (fun n => ({ name := n } : onnxTensorDescriptorV1))
               output_desc := args.output_names.map
                 (fun n => ({ name := n } : onnxTensorDescriptorV1))
               output_shape_hints :=
                 buildOutputShapeHints args.output_shape_hint args.output_names.length
               backend_id := info.backend_id
               backend := info.backend
               graph := info.graph
               onnxSetIOAndRunGraphPointer :=
                 if (lib.getExtensionFunctionAddress info.backend_id
                      "onnxSetIOAndRunGraphFunction").1 = ONNXIFI_STATUS_SUCCESS
                 then some (lib.getExtensionFunctionAddress info.backend_id
                      "onnxSetIOAndRunGraphFunction").2
                 else none
               input_names := args.input_names
               output_names := args.output_names }, cache2),
           tr ++ [AbiEvent.getExtensionFunctionAddress
             "onnxSetIOAndRunGraphFunction"]) := by
  simp only [constructOp]
  rw [if_neg hm, if_neg (show ¬ args.input_names.length ≠ is from fun hc => hc hi),
    if_neg (show ¬ args.output_names.length ≠ os from fun hc => hc ho),
    if_neg (show ¬ args.initializers.length % 2 ≠ 0 from fun hc => hc hp)]

/-- Reading back the names of descriptors built one-per-name restores the
name list. -/
theorem map_name_mk (l : List String) :
    (l.map (fun n => ({ name := n } : onnxTensorDescriptorV1))).map
      (fun d => d.name) = l := by
  induction l with
  | nil => rfl
  | cons a t ih => simp [ih]

/-- `refreshDescriptors` never changes the bound names. -/
theorem refreshDescriptors_names (newDims : Nat → List Nat) (newBuffer : Nat → Nat) :
    ∀ descs : List onnxTensorDescriptorV1,
      (refreshDescriptors newDims newBuffer descs).map (fun d => d.name) =
        descs.map (fun d => d.name) := by
  intro descs
  induction descs generalizing newDims newBuffer with
  | nil => rfl
  | cons d t ih =>
      rw [refreshDescriptors, List.mapIdx_cons]
      simp only [List.map_cons]
      exact congrArg _ (ih (fun i => newDims (i + 1)) (fun i => newBuffer (i + 1)))

/-- `refreshDescriptors` never changes the list length. -/
theorem refreshDescriptors_length (newDims : Nat → List Nat) (newBuffer : Nat → Nat)
    (descs : List onnxTensorDescriptorV1) :
    (refreshDescriptors newDims newBuffer descs).length = descs.length := by
  have h := congrArg List.length (refreshDescriptors_names newDims newBuffer descs)
  simpa using h

/-! Claim theorems. -/

/-- Cache-level sharing: inserting twice under one key returns the stored
bundle without re-invoking the creator, and one release keeps the entry
alive.  The cache is modelled from the spec (its implementation lives in
`caffe2/onnx/onnxifi_graph_info.h`, outside this excerpt). -/
theorem cache_sharing_per_key (key : String) (info : BackendGraphInfo)
    (tr : List AbiEvent) (r2 : Except String BackendGraphInfo × List AbiEvent) :
    OnnxBackendGraphMap.insert key (Except.ok info, tr) {} =
      (Except.ok (info, ⟨[(key, info, 1)], [key], []⟩), tr) ∧
    OnnxBackendGraphMap.insert key r2 ⟨[(key, info, 1)], [key], []⟩ =
      (Except.ok (info, ⟨[(key, info, 2)], [key], []⟩), []) ∧
    OnnxBackendGraphMap.remove key ⟨[(key, info, 2)], [key], []⟩ =
      Except.ok ⟨[(key, info, 1)], [key], []⟩ := by
  refine ⟨?_, ?_, ?_⟩
  · simp [OnnxBackendGraphMap.insert, List.lookup]
  · obtain ⟨r, t⟩ := r2
    simp [OnnxBackendGraphMap.insert, List.lookup, bumpRef]
  · simp [OnnxBackendGraphMap.remove, List.lookup, dropRef]

/-- C1: constructing a second operator instance with the same
configuration (hence an equal CacheKey string) against the cache left by a
first successful construction yields the same underlying HandleBundle
handles, invokes the creator no second time (the creator-call record is
unchanged and the only ABI event of the second construction is the
extension probe — no compile calls), and destroying one instance
(`remove` on the shared key) leaves the entry alive with the same bundle
and tears nothing down while the other instance still references it.
The cache (`OnnxBackendGraphMap`, declared in
`caffe2/onnx/onnxifi_graph_info.h`, outside this excerpt) is modelled from
the spec. -/
theorem cache_shared_between_instances (lib : onnxifi_library)
    (bi : List (String × String) → List String → List onnxTensorDescriptorV1)
    (args : OpArgs) (is os : Nat) (st1 : OnnxifiOpState) (c1 : CacheState)
    (h1 : (constructOp lib bi args is os {}).1 = Except.ok (st1, c1)) :
    ∃ st2 c2, (constructOp lib bi args is os c1).1 = Except.ok (st2, c2) ∧
      st2.backend_id = st1.backend_id ∧ st2.backend = st1.backend ∧
      st2.graph = st1.graph ∧
      c2.creatorCalls = c1.creatorCalls ∧
      (constructOp lib bi args is os c1).2 =
        [AbiEvent.getExtensionFunctionAddress "onnxSetIOAndRunGraphFunction"] ∧
      ∃ c3, OnnxBackendGraphMap.remove st1.op_id_string c2 = Except.ok c3 ∧
        c3.destroyed = [] ∧
        c3.entries.lookup st1.op_id_string =
          some (⟨st1.backend_id, st1.backend, st1.graph⟩, 1) := by
  obtain ⟨hm, hi, ho, hp⟩ := constructOp_ok_checks lib bi args is os {} st1 c1 h1
  rw [constructOp_eq lib bi args is os {} hm hi ho hp] at h1
  generalize hC : creator lib [ONNXIFI_BACKEND_PROPERTY_NONE] args.backend_id
      args.onnx_model
      (bi (pairsOf args.initializers)
        ((pairsOf args.initializers).map Prod.fst)) = cr at h1
  obtain ⟨r, tr0⟩ := cr
  cases r with
  | error e => simp [OnnxBackendGraphMap.insert, List.lookup] at h1
  | ok info =>
      simp only [OnnxBackendGraphMap.insert, List.lookup, Except.ok.injEq,
        Prod.mk.injEq] at h1
      obtain ⟨hst, hc1⟩ := h1
      subst hst
      subst hc1
      rw [constructOp_eq lib bi args is os _ hm hi ho hp, hC]
      simp [OnnxBackendGraphMap.insert, List.lookup, bumpRef,
        OnnxBackendGraphMap.remove, dropRef]
      refine ⟨_, _, ⟨rfl, rfl⟩, rfl, rfl, rfl, rfl, ?_⟩
      refine ⟨⟨[(makeOpIdString args.model_id args.net_pos, info, 1)],
        [makeOpIdString args.model_id args.net_pos], []⟩, ?_, rfl, ?_⟩
      · simp [List.lookup, dropRef]
      · simp [List.lookup]

/-- Witness for C1: after the concrete construction of `argsGood` against
`libOneBackend`, a second identical construction shares handles 10, 100,
200, adds no creator call, probes only, and one release keeps the entry. -/
theorem cache_shared_between_instances_witness :
    ∃ st2 c2,
      (constructOp libOneBackend noWeights argsGood 2 1 cacheGood).1 =
        Except.ok (st2, c2) ∧
      st2.backend_id = stGood.backend_id ∧ st2.backend = stGood.backend ∧
      st2.graph = stGood.graph ∧
      c2.creatorCalls = cacheGood.creatorCalls ∧
      (constructOp libOneBackend noWeights argsGood 2 1 cacheGood).2 =
        [AbiEvent.getExtensionFunctionAddress "onnxSetIOAndRunGraphFunction"] ∧
      ∃ c3, OnnxBackendGraphMap.remove stGood.op_id_string c2 = Except.ok c3 ∧
        c3.destroyed = [] ∧
        c3.entries.lookup stGood.op_id_string =
          some (⟨stGood.backend_id, stGood.backend, stGood.graph⟩, 1) :=
  cache_shared_between_instances libOneBackend noWeights argsGood 2 1
    stGood cacheGood rfl

/-- C2: `SetOutputShapeAndType` returns the registered hint's type tag and
appends exactly the hint's dims when a hint exists for the output
position, and returns `ONNXIFI_DATATYPE_FLOAT32` leaving the dims sequence
untouched when none does. -/
theorem setOutputShapeAndType_hint_override
    (hints : List (Nat × TensorInfo)) (i : Nat) (dims : List Nat) :
    (∀ info, hints.lookup i = some info →
      SetOutputShapeAndType hints i dims = (info.onnxifi_type, dims ++ info.dims)) ∧
    (hints.lookup i = none →
      SetOutputShapeAndType hints i dims = (ONNXIFI_DATATYPE_FLOAT32, dims)) := by
  constructor
  · intro info h
    simp [SetOutputShapeAndType, h]
  · intro h
    simp [SetOutputShapeAndType, h]

/-- Witness for C2 at a concrete hint table: output 0 carries hint
`dims = [1, 10], type = 1`; output 5 carries none. -/
theorem setOutputShapeAndType_hint_override_witness :
    SetOutputShapeAndType [(0, ⟨[1, 10], 1⟩)] 0 [] = (1, [1, 10]) ∧
    SetOutputShapeAndType [(0, ⟨[1, 10], 1⟩)] 5 [] = (ONNXIFI_DATATYPE_FLOAT32, []) := by
  constructor
  · exact (setOutputShapeAndType_hint_override [(0, ⟨[1, 10], 1⟩)] 0 []).1 ⟨[1, 10], 1⟩ rfl
  · exact (setOutputShapeAndType_hint_override [(0, ⟨[1, 10], 1⟩)] 5 []).2 rfl

/-- C9 counterexample: the CacheKey mapping `model_id ++ ":" ++ net_pos`
is not injective on pairs — the distinct configurations
`("a:b", "c")` and `("a", "b:c")` produce the same key `"a:b:c"`. -/
theorem makeOpIdString_not_injective :
    makeOpIdString "a:b" "c" = makeOpIdString "a" "b:c" ∧
    (("a:b", "c") : String × String) ≠ ("a", "b:c") := by
  constructor
  · decide
  · decide

/-- C9 (amended): the CacheKey mapping is injective on pairs whose model
identifier contains no colon: equal keys then force equal model ids and
equal net positions. -/
theorem makeOpIdString_injective_on_colon_free
    (m1 p1 m2 p2 : String) (h1 : ':' ∉ m1.data) (h2 : ':' ∉ m2.data)
    (h : makeOpIdString m1 p1 = makeOpIdString m2 p2) : m1 = m2 ∧ p1 = p2 := by
  have hd : (makeOpIdString m1 p1).data = (makeOpIdString m2 p2).data := by rw [h]
  rw [makeOpIdString_data, makeOpIdString_data] at hd
  have hr := colon_append_inj m1.data p1.data m2.data p2.data h1 h2 hd
  exact ⟨String.ext hr.1, String.ext hr.2⟩

/-- Witness for C9 (amended) at concrete colon-free model ids. -/
theorem makeOpIdString_injective_on_colon_free_witness :
    ("ab" : String) = "ab" ∧ ("cd" : String) = "cd" :=
  makeOpIdString_injective_on_colon_free "ab" "cd" "ab" "cd"
    (by decide) (by decide) rfl

/-- C10: a shape hint is recorded for output position `i` (below the
output count) iff the `output_shape_hint_i` argument list is non-empty;
when recorded, the type tag is the first element and the dims are the
remaining elements, each converted from signed `int` to `uint64_t`
(a negative entry is stored as its value modulo `2^64`); an empty list is
indistinguishable from an absent argument, which also reads as the empty
list. -/
theorem outputShapeHints_recording (hintArg : Nat → List Int) (n i : Nat)
    (hi : i < n) :
    ((buildOutputShapeHints hintArg n).lookup i = none ↔ hintArg i = []) ∧
    (∀ t rest, hintArg i = t :: rest →
      (buildOutputShapeHints hintArg n).lookup i =
        some ⟨rest.map uint64OfInt, uint64OfInt t⟩) ∧
    (∀ x : Int, -2 ^ 31 ≤ x → x < 0 → (uint64OfInt x : Int) = 2 ^ 64 + x) := by
  refine ⟨?_, ?_, ?_⟩
  · rw [lookup_buildOutputShapeHints hintArg n i hi]
    cases h : hintArg i <;> simp [parseOutputShapeHint, h]
  · intro t rest h
    rw [lookup_buildOutputShapeHints hintArg n i hi, h]
    rfl
  · intro x hx1 hx2
    unfold uint64OfInt
    have h64 : (2 : Int) ^ 64 = 18446744073709551616 := by norm_num
    have h31 : (2 : Int) ^ 31 = 2147483648 := by norm_num
    rw [h64] at *
    rw [h31] at hx1
    omega

/-- C5: if the enumerated backend count is zero or the requested index is
not below the count, the creator fails (the model is a pure function, so
the failure is deterministic), its trace stops at the count query, and in
particular `onnxInitBackend` is never invoked. -/
theorem creator_bad_index_fails_early (lib : onnxifi_library) (pp : List Nat)
    (idx : Nat) (m : String) (wd : List onnxTensorDescriptorV1) (num : Nat)
    (h0 : lib.getBackendIDsNull = (ONNXIFI_STATUS_FALLBACK, num))
    (h1 : num = 0 ∨ num ≤ idx) :
    (creator lib pp idx m wd).1.isOk = false ∧
    (creator lib pp idx m wd).2 = [AbiEvent.getBackendIDsNull] ∧
    (∀ b, AbiEvent.initBackend b ∉ (creator lib pp idx m wd).2) := by
  by_cases hz : num = 0
  · subst hz
    have hc : creator lib pp idx m wd =
        (Except.error "At least 1 onnxifi backend should be available",
         [AbiEvent.getBackendIDsNull]) := by
      simp [creator, h0]
    rw [hc]
    exact ⟨rfl, rfl, by simp⟩
  · have hle : num ≤ idx := h1.resolve_left hz
    have hpos : 0 < num := Nat.pos_of_ne_zero hz
    have hidx : ¬ idx < num := by omega
    have hc : creator lib pp idx m wd =
        (Except.error "Backend idx out of bound", [AbiEvent.getBackendIDsNull]) := by
      simp [creator, h0, hpos, hidx]
    rw [hc]
    exact ⟨rfl, rfl, by simp⟩

/-- Witness for C5 at two concrete libraries: one reporting zero backends
with index 0 requested, one reporting a single backend with index 5
requested. -/
theorem creator_bad_index_fails_early_witness :
    ((creator libZeroBackends [ONNXIFI_BACKEND_PROPERTY_NONE] 0 "model-bytes" []).1.isOk
        = false ∧
      (creator libZeroBackends [ONNXIFI_BACKEND_PROPERTY_NONE] 0 "model-bytes" []).2
        = [AbiEvent.getBackendIDsNull] ∧
      ∀ b, AbiEvent.initBackend b ∉
        (creator libZeroBackends [ONNXIFI_BACKEND_PROPERTY_NONE] 0 "model-bytes" []).2) ∧
    ((creator libOneBackend [ONNXIFI_BACKEND_PROPERTY_NONE] 5 "model-bytes" []).1.isOk
        = false ∧
      (creator libOneBackend [ONNXIFI_BACKEND_PROPERTY_NONE] 5 "model-bytes" []).2
        = [AbiEvent.getBackendIDsNull] ∧
      ∀ b, AbiEvent.initBackend b ∉
        (creator libOneBackend [ONNXIFI_BACKEND_PROPERTY_NONE] 5 "model-bytes" []).2) :=
  ⟨creator_bad_index_fails_early libZeroBackends _ 0 "model-bytes" [] 0 rfl (Or.inl rfl),
   creator_bad_index_fails_early libOneBackend _ 5 "model-bytes" [] 1 rfl
     (Or.inr (by omega))⟩

/-- C3 counterexample: with one enumerated backend and the out-of-range
index 5 requested, the creator's trace is the count query alone — the
index validation ran (its diagnostic is the error) although the fill query
of the two-phase enumeration was never made, contradicting the claimed
order in which the complete two-phase enumeration (count then fill)
precedes the range validation. -/
theorem creator_validates_before_fill_counterexample :
    creator libOneBackend [ONNXIFI_BACKEND_PROPERTY_NONE] 5 "model-bytes" [] =
      (Except.error "Backend idx out of bound", [AbiEvent.getBackendIDsNull]) ∧
    AbiEvent.getBackendIDsFill 1 ∉
      (creator libOneBackend [ONNXIFI_BACKEND_PROPERTY_NONE] 5 "model-bytes" []).2 := by
  constructor
  · rfl
  · intro h
    simp [creator, libOneBackend, ONNXIFI_STATUS_FALLBACK] at h

/-- C3 (amended): the creator performs, in order, (a1) the null-buffer
count query, (b) validation that the count is positive and the requested
index is in range, (a2) the fill query with a buffer sized to the count,
(c) backend-instance initialization from the selected identity with the
supplied property list, (d) release of every non-selected enumerated
identity in index order, (e) graph initialization from the backend, model
bytes and weight descriptors, and (f) returns the new HandleBundle. -/
theorem creator_step_order (lib : onnxifi_library) (pp : List Nat) (idx : Nat)
    (m : String) (wd : List onnxTensorDescriptorV1) (num : Nat) (ids : List Nat)
    (backend graph : Nat)
    (h0 : lib.getBackendIDsNull = (ONNXIFI_STATUS_FALLBACK, num))
    (h1 : idx < num)
    (h2 : lib.getBackendIDsFill num = (ONNXIFI_STATUS_SUCCESS, ids))
    (h3 : lib.initBackend (ids.getD idx 0) pp = (ONNXIFI_STATUS_SUCCESS, backend))
    (h4 : lib.initGraph backend m wd = (ONNXIFI_STATUS_SUCCESS, graph)) :
    creator lib pp idx m wd =
      (Except.ok ⟨ids.getD idx 0, backend, graph⟩,
       [AbiEvent.getBackendIDsNull, AbiEvent.getBackendIDsFill num,
        AbiEvent.initBackend (ids.getD idx 0)] ++
       ((List.range num).filter (fun i => i ≠ idx)).map
         (fun i => AbiEvent.releaseBackendID (ids.getD i 0)) ++
       [AbiEvent.initGraph backend]) := by
  have hpos : 0 < num := by omega
  have h3x := h3
  simp only [List.getD_eq_getElem?_getD] at h3x
  simp [creator, h0, h1, h2, h3, h3x, h4, hpos]

/-- Witness for C3 (amended) at the three-backend library with index 1:
identities 10 and 12 are released, identity 11 is kept. -/
theorem creator_step_order_witness :
    creator libThreeBackends [ONNXIFI_BACKEND_PROPERTY_NONE] 1 "model-bytes" [] =
      (Except.ok ⟨11, 100, 200⟩,
       [AbiEvent.getBackendIDsNull, AbiEvent.getBackendIDsFill 3,
        AbiEvent.initBackend 11, AbiEvent.releaseBackendID 10,
        AbiEvent.releaseBackendID 12, AbiEvent.initGraph 100]) := by
  have h := creator_step_order libThreeBackends [ONNXIFI_BACKEND_PROPERTY_NONE] 1
    "model-bytes" [] 3 ((List.range 3).map (fun i => 10 + i)) 100 200
    rfl (by omega) rfl rfl rfl
  simpa using h

/-- C4 counterexample: the status policy as claimed fails twice on the
code.  First, the null-buffer count query returning the designated success
code does not let execution proceed — it aborts construction (the code
demands the fallback code there).  Second, a non-success, non-fallback
status from `onnxReleaseBackendID` is not fatal: its return value is
discarded and the creator still succeeds. -/
theorem creator_status_policy_counterexample :
    (creator libCountSuccess [ONNXIFI_BACKEND_PROPERTY_NONE] 0 "model-bytes" []).1 =
      Except.error "onnxGetBackendIDs: expected ONNXIFI_STATUS_FALLBACK" ∧
    (creator libBadRelease [ONNXIFI_BACKEND_PROPERTY_NONE] 0 "model-bytes" []).1.isOk
      = true := by
  constructor
  · rfl
  · rfl

/-- C4 (amended): within the creator, the null-buffer count query must
return the fallback code (any other status, the success code included,
aborts with a diagnostic naming the operation), the fill query, the
backend initialization and the graph initialization must return the
success code (any other status aborts likewise), and the status returned
by the release-backend-identity calls is ignored: the creator's success is
exactly equivalent to those checked conditions, independent of the release
statuses. -/
theorem creator_status_discipline (lib : onnxifi_library) (pp : List Nat)
    (idx : Nat) (m : String) (wd : List onnxTensorDescriptorV1) :
    (creator lib pp idx m wd).1.isOk = true ↔
      (lib.getBackendIDsNull.1 = ONNXIFI_STATUS_FALLBACK ∧
       0 < lib.getBackendIDsNull.2 ∧
       idx < lib.getBackendIDsNull.2 ∧
       (lib.getBackendIDsFill lib.getBackendIDsNull.2).1 = ONNXIFI_STATUS_SUCCESS ∧
       (lib.initBackend
          ((lib.getBackendIDsFill lib.getBackendIDsNull.2).2.getD idx 0) pp).1
         = ONNXIFI_STATUS_SUCCESS ∧
       (lib.initGraph
          (lib.initBackend
            ((lib.getBackendIDsFill lib.getBackendIDsNull.2).2.getD idx 0) pp).2
          m wd).1 = ONNXIFI_STATUS_SUCCESS) := by
  simp only [creator]
  split_ifs with hA hB hC hD hE hF <;>
    simp only [Except.isOk, Except.toBool, Bool.false_eq_true, false_iff,
      true_iff] <;>
    tauto

/-- C6: an odd-length initializers list fails construction with an empty
ABI trace (no backend call was made); an even-length list is parsed as
consecutive (original-name, workspace-name) pairs — flattening the parsed
pairs restores the list, and every pair list round-trips — with the rename
mapping being the pair list and the original-name set its first
components, as `constructOp` passes them on. -/
theorem initializers_pairing :
    (∀ (lib : onnxifi_library)
        (bi : List (String × String) → List String → List onnxTensorDescriptorV1)
        (args : OpArgs) (is os : Nat) (cache : CacheState),
      args.initializers.length % 2 = 1 →
        (constructOp lib bi args is os cache).1.isOk = false ∧
        (constructOp lib bi args is os cache).2 = []) ∧
    (∀ l : List String, l.length % 2 = 0 → flattenPairs (pairsOf l) = l) ∧
    (∀ ps : List (String × String), pairsOf (flattenPairs ps) = ps) := by
  refine ⟨?_, flattenPairs_pairsOf, pairsOf_flattenPairs⟩
  intro lib bi args is os cache h
  simp only [constructOp]
  split_ifs with h1 h2 h3 h4 <;>
    first
      | exact ⟨rfl, rfl⟩
      | omega

/-- Witness for C6: the odd configuration `argsOddInit` fails with no ABI
events, and a concrete even list parses by consecutive pairs. -/
theorem initializers_pairing_witness :
    ((constructOp libOneBackend noWeights argsOddInit 2 1 {}).1.isOk = false ∧
     (constructOp libOneBackend noWeights argsOddInit 2 1 {}).2 = []) ∧
    flattenPairs (pairsOf ["a", "b", "c", "d"]) = ["a", "b", "c", "d"] :=
  ⟨initializers_pairing.1 libOneBackend noWeights argsOddInit 2 1 {} rfl,
   initializers_pairing.2.1 ["a", "b", "c", "d"] rfl⟩

/-- C7: construction fails unless the declared input-name count equals the
input arity and the output-name count the output arity; on success the
descriptor lists hold exactly one descriptor per declared name in declared
order with matching sizes; and the per-invocation refresh (modelled from
the spec, `RunOnDevice` being only declared in this header) never changes
the bound names or sizes. -/
theorem descriptor_arity_and_immutability :
    (∀ (lib : onnxifi_library)
        (bi : List (String × String) → List String → List onnxTensorDescriptorV1)
        (args : OpArgs) (is os : Nat) (cache : CacheState),
      args.input_names.length ≠ is ∨ args.output_names.length ≠ os →
        (constructOp lib bi args is os cache).1.isOk = false) ∧
    (∀ (lib : onnxifi_library)
        (bi : List (String × String) → List String → List onnxTensorDescriptorV1)
        (args : OpArgs) (is os : Nat) (cache : CacheState)
        (st : OnnxifiOpState) (c2 : CacheState),
      (constructOp lib bi args is os cache).1 = Except.ok (st, c2) →
        st.input_desc.map (fun d => d.name) = args.input_names ∧
        st.input_desc.length = is ∧
        st.output_desc.map (fun d => d.name) = args.output_names ∧
        st.output_desc.length = os) ∧
    (∀ (newDims : Nat → List Nat) (newBuffer : Nat → Nat)
        (descs : List onnxTensorDescriptorV1),
      (refreshDescriptors newDims newBuffer descs).map (fun d => d.name) =
        descs.map (fun d => d.name) ∧
      (refreshDescriptors newDims newBuffer descs).length = descs.length) := by
  refine ⟨?_, ?_, ?_⟩
  · intro lib bi args is os cache h
    simp only [constructOp]
    split_ifs with h1 h2 h3 h4 <;>
      first
        | rfl
        | tauto
  · intro lib bi args is os cache st c2 h
    obtain ⟨hm, hi, ho, hp⟩ := constructOp_ok_checks lib bi args is os cache st c2 h
    rw [constructOp_eq lib bi args is os cache hm hi ho hp] at h
    generalize hI : OnnxBackendGraphMap.insert _ _ _ = res at h
    obtain ⟨r, tr⟩ := res
    cases r with
    | error e => simp at h
    | ok v =>
        obtain ⟨info, c2x⟩ := v
        simp only [Except.ok.injEq, Prod.mk.injEq] at h
        obtain ⟨hst, -⟩ := h
        subst hst
        refine ⟨?_, ?_, ?_, ?_⟩
        · exact map_name_mk args.input_names
        · show (args.input_names.map
              (fun n => ({ name := n } : onnxTensorDescriptorV1))).length = is
          rw [List.length_map]
          exact hi
        · exact map_name_mk args.output_names
        · show (args.output_names.map
              (fun n => ({ name := n } : onnxTensorDescriptorV1))).length = os
          rw [List.length_map]
          exact ho
  · intro newDims newBuffer descs
    exact ⟨refreshDescriptors_names newDims newBuffer descs,
      refreshDescriptors_length newDims newBuffer descs⟩

/-- Witness for C7: a mismatched arity fails, the successful concrete
construction yields one descriptor per declared name in order, and a
refresh leaves names and sizes unchanged. -/
theorem descriptor_arity_and_immutability_witness :
    (constructOp libOneBackend noWeights argsGood 3 1 {}).1.isOk = false ∧
    (stGood.input_desc.map (fun d => d.name) = argsGood.input_names ∧
     stGood.input_desc.length = 2 ∧
     stGood.output_desc.map (fun d => d.name) = argsGood.output_names ∧
     stGood.output_desc.length = 1) ∧
    ((refreshDescriptors (fun _ => [7]) (fun _ => 3) stGood.input_desc).map
        (fun d => d.name) = stGood.input_desc.map (fun d => d.name) ∧
     (refreshDescriptors (fun _ => [7]) (fun _ => 3) stGood.input_desc).length =
        stGood.input_desc.length) :=
  ⟨descriptor_arity_and_immutability.1 libOneBackend noWeights argsGood 3 1 {}
      (Or.inl (by decide)),
   descriptor_arity_and_immutability.2.1 libOneBackend noWeights argsGood 2 1 {}
      stGood cacheGood rfl,
   descriptor_arity_and_immutability.2.2 (fun _ => [7]) (fun _ => 3) stGood.input_desc⟩

/-- C8: the extension probe runs after the HandleBundle is obtained (it is
the last ABI event of a successful construction); the recorded pointer is
the probed address on probe success and null on probe failure; and the
probe's outcome never affects whether construction succeeds — replacing
the library's probe entry point by any other leaves success unchanged. -/
theorem extension_probe_optional :
    (∀ (lib : onnxifi_library) (f : Nat → String → Nat × Nat)
        (bi : List (String × String) → List String → List onnxTensorDescriptorV1)
        (args : OpArgs) (is os : Nat) (cache : CacheState),
      (constructOp { lib with getExtensionFunctionAddress := f }
          bi args is os cache).1.isOk =
        (constructOp lib bi args is os cache).1.isOk) ∧
    (∀ (lib : onnxifi_library)
        (bi : List (String × String) → List String → List onnxTensorDescriptorV1)
        (args : OpArgs) (is os : Nat) (cache : CacheState)
        (st : OnnxifiOpState) (c2 : CacheState),
      (constructOp lib bi args is os cache).1 = Except.ok (st, c2) →
        st.onnxSetIOAndRunGraphPointer =
          (if (lib.getExtensionFunctionAddress st.backend_id
                "onnxSetIOAndRunGraphFunction").1 = ONNXIFI_STATUS_SUCCESS
           then some (lib.getExtensionFunctionAddress st.backend_id
                "onnxSetIOAndRunGraphFunction").2
           else none)) ∧
    (∀ (lib : onnxifi_library)
        (bi : List (String × String) → List String → List onnxTensorDescriptorV1)
        (args : OpArgs) (is os : Nat) (cache : CacheState)
        (st : OnnxifiOpState) (c2 : CacheState),
      (constructOp lib bi args is os cache).1 = Except.ok (st, c2) →
        (constructOp lib bi args is os cache).2.getLast? =
          some (AbiEvent.getExtensionFunctionAddress
            "onnxSetIOAndRunGraphFunction")) := by
  refine ⟨?_, ?_, ?_⟩
  · intro lib f bi args is os cache
    simp only [constructOp, creator_ext_update]
    split_ifs <;> try rfl
    generalize OnnxBackendGraphMap.insert _ _ _ = res
    obtain ⟨r, tr⟩ := res
    cases r with
    | error e => rfl
    | ok v =>
        obtain ⟨info, c2x⟩ := v
        rfl
  · intro lib bi args is os cache st c2 h
    obtain ⟨hm, hi, ho, hp⟩ := constructOp_ok_checks lib bi args is os cache st c2 h
    rw [constructOp_eq lib bi args is os cache hm hi ho hp] at h
    generalize hI : OnnxBackendGraphMap.insert _ _ _ = res at h
    obtain ⟨r, tr⟩ := res
    cases r with
    | error e => simp at h
    | ok v =>
        obtain ⟨info, c2x⟩ := v
        simp only [Except.ok.injEq, Prod.mk.injEq] at h
        obtain ⟨hst, -⟩ := h
        subst hst
        rfl
  · intro lib bi args is os cache st c2 h
    obtain ⟨hm, hi, ho, hp⟩ := constructOp_ok_checks lib bi args is os cache st c2 h
    rw [constructOp_eq lib bi args is os cache hm hi ho hp] at h ⊢
    generalize hI : OnnxBackendGraphMap.insert _ _ _ = res at h ⊢
    obtain ⟨r, tr⟩ := res
    cases r with
    | error e => simp at h
    | ok v =>
        obtain ⟨info, c2x⟩ := v
        simp

/-- Witness for C8: construction against `libNoExt` (whose probe fails)
succeeds with a null extension pointer, against `libOneBackend` (whose
probe succeeds) with the probed address recorded, the probe is the last
ABI event, and swapping the probe entry point preserves success. -/
theorem extension_probe_optional_witness :
    (constructOp
        { libOneBackend with
            getExtensionFunctionAddress := fun _ _ => (ONNXIFI_STATUS_FALLBACK, 0) }
        noWeights argsGood 2 1 {}).1.isOk =
      (constructOp libOneBackend noWeights argsGood 2 1 {}).1.isOk ∧
    stNoExt.onnxSetIOAndRunGraphPointer =
      (if (libNoExt.getExtensionFunctionAddress stNoExt.backend_id
            "onnxSetIOAndRunGraphFunction").1 = ONNXIFI_STATUS_SUCCESS
       then some (libNoExt.getExtensionFunctionAddress stNoExt.backend_id
            "onnxSetIOAndRunGraphFunction").2
       else none) ∧
    (constructOp libNoExt noWeights argsGood 2 1 {}).2.getLast? =
      some (AbiEvent.getExtensionFunctionAddress "onnxSetIOAndRunGraphFunction") :=
  ⟨extension_probe_optional.1 libOneBackend
      (fun _ _ => (ONNXIFI_STATUS_FALLBACK, 0)) noWeights argsGood 2 1 {},
   extension_probe_optional.2.1 libNoExt noWeights argsGood 2 1 {}
      stNoExt cacheGood rfl,
   extension_probe_optional.2.2 libNoExt noWeights argsGood 2 1 {}
      stNoExt cacheGood rfl⟩

/-- Witness for C10 at the concrete hint assignment `hintArgExample` with
two outputs: output 0's list `[1, 2, -1]` records type 1 and dims
`[2, 2^64 - 1]`; output 1's empty list records nothing. -/
theorem outputShapeHints_recording_witness :
    (buildOutputShapeHints hintArgExample 2).lookup 0 =
      some ⟨[2, -1].map uint64OfInt, uint64OfInt 1⟩ ∧
    (buildOutputShapeHints hintArgExample 2).lookup 1 = none := by
  constructor
  · exact (outputShapeHints_recording hintArgExample 2 0 (by decide)).2.1 1 [2, -1] rfl
  · exact ((outputShapeHints_recording hintArgExample 2 1 (by decide)).1).mpr rfl

end Onnxifi
